import Mathlib

/-!
Shallow embedding of the in-memory CRUD core of the BrowseMate demo API
(src/app/routers/users.py, src/app/routers/items.py, and the Pydantic
schemas in src/app/schemas that determine which request fields exist,
which are optional, and which defaults apply).

Modelling conventions:
* Python dicts keyed by integer id are modelled as insertion-ordered
  association lists `List (Nat × α)`; `list(db.values())` is `db.map Prod.snd`.
* Timestamps (`datetime.utcnow()`) are `Nat` parameters passed to each
  operation ("now"); the clock is external to the code.
* Prices (Python floats / Decimals constrained to two decimal places and
  compared only with `==`, `<=`, `>=`) are modelled as `Rat`.
* A PATCH body validated with Pydantic and dumped with
  `model_dump(exclude_unset=True)` distinguishes a field absent from the
  request from a field present with JSON null.  An update field is
  therefore `Option (Option β)`: outer `none` = absent, `some v` = present
  with value `v`, where `v = none` is an explicit null.  Because an
  explicit null is written into the stored dict verbatim, stored record
  fields that a PATCH can touch are `Option`-typed.
* `raise HTTPException` aborts the handler; each state-mutating handler is
  modelled as `state → Except Err result × state`, returning the state as
  it is at the raise point (all raises in this code happen before any
  mutation of the store).
-/

/-- Error taxonomy of the two routers: `HTTPException(404)` for a missing
identifier, `HTTPException(400)` for an email or username conflict. -/
inductive Err where
  | notFound
  | conflictEmail
  | conflictUsername
deriving DecidableEq, Repr

/-- HTTP status code attached to each error by the handlers. -/
def Err.statusCode : Err → Nat
  | .notFound => 404
  | .conflictEmail => 400
  | .conflictUsername => 400

/-! ## User data model (src/app/schemas/user.py) -/

/-- A stored user record: the dict built in `create_user`
(users.py lines 79-87).  A PATCH carrying an explicit null writes `None`
into the dict for any of the four updatable fields, so those stored
values are `Option`-typed even though `create_user` always stores
strings/booleans. -/
structure User where
  id : Nat
  email : Option String
  username : Option String
  full_name : Option String
  is_active : Option Bool
  created_at : Nat
  updated_at : Option Nat
deriving DecidableEq, Repr

/-- `UserCreate` request body after request validation: `email`,
`username`, `password` required; `full_name` optional (default null);
`is_active` defaulted to true by the schema when omitted. -/
structure UserCreate where
  email : String
  username : String
  full_name : Option String
  is_active : Bool
  password : String
deriving DecidableEq, Repr

/-- `UserUpdate` request body under `model_dump(exclude_unset=True)`:
outer `none` = field absent from the request, `some v` = field present
with value `v` (inner `none` = explicit JSON null). -/
structure UserUpdate where
  email : Option (Option String)
  username : Option (Option String)
  full_name : Option (Option String)
  is_active : Option (Option Bool)
  password : Option (Option String)
deriving DecidableEq, Repr

/-- The `UserUpdate` in which every field is absent: `PATCH` with body `{}`. -/
def noneUserUpd : UserUpdate :=
  { email := none, username := none, full_name := none, is_active := none
    password := none }

/-- Module state of users.py: `_fake_users_db` and `_user_id_counter`. -/
structure UsersState where
  db : List (Nat × User)
  counter : Nat
deriving DecidableEq, Repr

/-- Initial module state: empty dict, counter 0 (users.py lines 36-37). -/
def initUsers : UsersState := { db := [], counter := 0 }

/-- The duplicate scan of `create_user` (users.py lines 64-74): iterate
the stored records in insertion order; for each, raise on equal email
first, then on equal username. -/
def usersConflict (db : List (Nat × User)) (email username : String) :
    Option Err :=
  match db with
  | [] => none
  | (_, u) :: rest =>
    if u.email == some email then some .conflictEmail
    else if u.username == some username then some .conflictUsername
    else usersConflict rest email username

/-- `create_user` (users.py lines 48-90): duplicate scan, then increment
the counter, stamp `created_at = now`, `updated_at = None`, store the
dict keyed by the new id.  The stored dict has no password key. -/
def createUser (s : UsersState) (now : Nat) (b : UserCreate) :
    Except Err User × UsersState :=
  match usersConflict s.db b.email b.username with
  | some e => (.error e, s)
  | none =>
    let newId := s.counter + 1
    let u : User :=
      { id := newId, email := some b.email, username := some b.username
        full_name := b.full_name, is_active := some b.is_active
        created_at := now, updated_at := none }
    (.ok u, { db := s.db ++ [(newId, u)], counter := newId })

/-- `get_user` (users.py lines 144-163): lookup or 404.  The handler has
no mutating statement, so it is a pure function of the state. -/
def getUser (s : UsersState) (uid : Nat) : Except Err User :=
  match s.db.lookup uid with
  | none => .error .notFound
  | some u => .ok u

/-- Replace the value stored under key `k` (in-place mutation of the dict
entry `db[k]`, which keeps its position in insertion order). -/
def storeSet (db : List (Nat × α)) (k : Nat) (v : α) : List (Nat × α) :=
  db.map fun p => if p.1 == k then (k, v) else p

/-- `del db[k]` (identifier keys are unique in every reachable state). -/
def storeDel (db : List (Nat × α)) (k : Nat) : List (Nat × α) :=
  db.filter fun p => p.1 != k

/-- The email conflict scan of `update_user` (users.py lines 201-207):
runs only when `"email" in update_data`, and compares the update value
(possibly an explicit null) against every other stored record with `==`. -/
def emailTakenByOther (db : List (Nat × User)) (uid : Nat) :
    Option (Option String) → Bool
  | none => false
  | some v => db.any fun p => p.1 != uid && p.2.email == v

/-- The username conflict scan of `update_user` (users.py lines 209-215). -/
def usernameTakenByOther (db : List (Nat × User)) (uid : Nat) :
    Option (Option String) → Bool
  | none => false
  | some v => db.any fun p => p.1 != uid && p.2.username == v

/-- `user_dict.update(update_data)` after `update_data.pop("password")`
(users.py lines 217-220): each field present in the request overwrites
the stored value (explicit nulls included); absent fields are untouched;
the password never reaches the dict. -/
def mergeUser (u : User) (b : UserUpdate) : User :=
  { u with
    email := b.email.getD u.email
    username := b.username.getD u.username
    full_name := b.full_name.getD u.full_name
    is_active := b.is_active.getD u.is_active }

/-- `update_user` (users.py lines 174-223): 404 check, conflict scans for
each field present in the request, pop the password, merge, stamp
`updated_at = now`, return the merged record. -/
def updateUser (s : UsersState) (now : Nat) (uid : Nat) (b : UserUpdate) :
    Except Err User × UsersState :=
  match s.db.lookup uid with
  | none => (.error .notFound, s)
  | some u =>
    if emailTakenByOther s.db uid b.email then (.error .conflictEmail, s)
    else if usernameTakenByOther s.db uid b.username then
      (.error .conflictUsername, s)
    else
      let u' : User := { mergeUser u b with updated_at := some now }
      (.ok u', { s with db := storeSet s.db uid u' })

/-- `delete_user` (users.py lines 234-258): 404 check, then `del`. -/
def deleteUser (s : UsersState) (uid : Nat) : Except Err Unit × UsersState :=
  match s.db.lookup uid with
  | none => (.error .notFound, s)
  | some _ => (.ok (), { s with db := storeDel s.db uid })

/-! ## Item data model (src/app/schemas/item.py) -/

/-- `ItemStatus` enum: draft / active / archived. -/
inductive ItemStatus where
  | draft
  | active
  | archived
deriving DecidableEq, Repr

/-- Schema default applied by validation when the create request omits
`status` (item.py lines 73-77). -/
def itemStatusDefault : ItemStatus := .draft

/-- A stored item record: the dict built in `create_item`
(items.py lines 64-74).  As with users, a PATCH carrying an explicit
null writes `None` verbatim, so the five updatable fields are
`Option`-typed. -/
structure Item where
  id : Nat
  name : Option String
  description : Option String
  price : Option Rat
  status : Option ItemStatus
  tags : Option (List String)
  owner_id : Nat
  created_at : Nat
  updated_at : Option Nat
deriving DecidableEq, Repr

/-- `ItemCreate` request body after request validation (defaults:
`description = null`, `status = draft`, `tags = []`). -/
structure ItemCreate where
  name : String
  description : Option String
  price : Rat
  status : ItemStatus
  tags : List String
  owner_id : Nat
deriving DecidableEq, Repr

/-- `ItemUpdate` request body under `model_dump(exclude_unset=True)`,
with the same absent / present-with-null encoding as `UserUpdate`. -/
structure ItemUpdate where
  name : Option (Option String)
  description : Option (Option String)
  price : Option (Option Rat)
  status : Option (Option ItemStatus)
  tags : Option (Option (List String))
deriving DecidableEq, Repr

/-- The `ItemUpdate` in which every field is absent: `PATCH` with body `{}`. -/
def noneItemUpd : ItemUpdate :=
  { name := none, description := none, price := none, status := none
    tags := none }

/-- Module state of items.py: `_fake_items_db` and `_item_id_counter`. -/
structure ItemsState where
  db : List (Nat × Item)
  counter : Nat
deriving DecidableEq, Repr

/-- Initial module state: empty dict, counter 0 (items.py lines 37-38). -/
def initItems : ItemsState := { db := [], counter := 0 }

/-- `create_item` (items.py lines 49-77): no uniqueness check of any
kind; increment the counter, stamp timestamps, store.  Never fails. -/
def createItem (s : ItemsState) (now : Nat) (b : ItemCreate) :
    Item × ItemsState :=
  let newId := s.counter + 1
  let it : Item :=
    { id := newId, name := some b.name, description := b.description
      price := some b.price, status := some b.status, tags := some b.tags
      owner_id := b.owner_id, created_at := now, updated_at := none }
  (it, { db := s.db ++ [(newId, it)], counter := newId })

/-- `get_item` (items.py lines 135-154): lookup or 404. -/
def getItem (s : ItemsState) (iid : Nat) : Except Err Item :=
  match s.db.lookup iid with
  | none => .error .notFound
  | some it => .ok it

/-- `item_dict.update(update_data)` (items.py line 199).  The enum-to-
string and Decimal-to-float conversions on lines 192-197 are identities
in this model (statuses stay `ItemStatus`, prices stay `Rat`), and both
are skipped for an explicit null, which is then written verbatim. -/
def mergeItem (it : Item) (b : ItemUpdate) : Item :=
  { it with
    name := b.name.getD it.name
    description := b.description.getD it.description
    price := b.price.getD it.price
    status := b.status.getD it.status
    tags := b.tags.getD it.tags }

/-- `update_item` (items.py lines 157-202): 404 check, merge, stamp
`updated_at = now`.  Items have no uniqueness constraints, so a present
identifier always succeeds. -/
def updateItem (s : ItemsState) (now : Nat) (iid : Nat) (b : ItemUpdate) :
    Except Err Item × ItemsState :=
  match s.db.lookup iid with
  | none => (.error .notFound, s)
  | some it =>
    let it' : Item := { mergeItem it b with updated_at := some now }
    (.ok it', { s with db := storeSet s.db iid it' })

/-- `delete_item` (items.py lines 213-237): 404 check, then `del`. -/
def deleteItem (s : ItemsState) (iid : Nat) : Except Err Unit × ItemsState :=
  match s.db.lookup iid with
  | none => (.error .notFound, s)
  | some _ => (.ok (), { s with db := storeDel s.db iid })

/-- `archive_item` (items.py lines 248-271): 404 check, set
`status = archived` and `updated_at = now` in place; the record is not
removed. -/
def archiveItem (s : ItemsState) (now : Nat) (iid : Nat) :
    Except Err Item × ItemsState :=
  match s.db.lookup iid with
  | none => (.error .notFound, s)
  | some it =>
    let it' : Item := { it with status := some .archived
                                updated_at := some now }
    (.ok it', { s with db := storeSet s.db iid it' })

/-! ## List endpoints: filter and paginate -/

/-- `PaginationParams` (common.py lines 88-125): `skip >= 0` (default 0),
`limit` in 1..100 (default 10), enforced by request validation. -/
structure PaginationParams where
  skip : Nat
  limit : Nat
deriving DecidableEq, Repr

/-- `UserFilterParams` (user.py lines 256-296): all criteria optional. -/
structure UserFilterParams where
  is_active : Option Bool
  email_contains : Option String
  username_contains : Option String
deriving DecidableEq, Repr

/-- `ItemFilterParams` (item.py lines 297-358): all criteria optional. -/
structure ItemFilterParams where
  status : Option ItemStatus
  owner_id : Option Nat
  min_price : Option Rat
  max_price : Option Rat
  tag : Option String
deriving DecidableEq, Repr

/-- `p` is a prefix of `s` as character lists. -/
def leadsWith : List Char → List Char → Bool
  | [], _ => true
  | _ :: _, [] => false
  | a :: as, b :: bs => a == b && leadsWith as bs

/-- `p` occurs as a contiguous sublist of `s`: Python `p in s` on strings. -/
def occursIn (p : List Char) : List Char → Bool
  | [] => leadsWith p []
  | s@(_ :: rest) => leadsWith p s || occursIn p rest

/-- Python `str.lower()` as a character list (ASCII-relevant range). -/
def lowerChars (s : String) : List Char :=
  s.data.map Char.toLower

/-- Python `q.lower() in s.lower()`: case-insensitive substring test used
by the user list filters (users.py lines 121, 123). -/
def lowerContains (q s : String) : Bool :=
  occursIn (lowerChars q) (lowerChars s)

/-- Case-insensitive substring test against a stored field value.  The
source calls `.lower()` on the stored value and would raise
`AttributeError` on a record whose field holds an explicit null; that
state is unreachable from the list endpoint scenarios considered here. -/
def optLowerContains (q : String) : Option String → Bool
  | some s => lowerContains q s
  | none => false

/-- `i["price"] >= m` against a stored price.  The source would raise
`TypeError` on a record whose price holds an explicit null. -/
def priceGe : Option Rat → Rat → Bool
  | some p, m => m ≤ p
  | none, _ => false

/-- `i["price"] <= m` against a stored price. -/
def priceLe : Option Rat → Rat → Bool
  | some p, m => p ≤ m
  | none, _ => false

/-- `filters.tag in i.get("tags", [])` against a stored tags value.  The
key is always present; the source would raise `TypeError` when the value
is an explicit null. -/
def tagMem (t : String) : Option (List String) → Bool
  | some ts => ts.contains t
  | none => false

/-- The filter block of `list_users` (users.py lines 117-123): three
sequential list comprehensions.  `if filters.email_contains:` is Python
truthiness, so a present empty string (excluded by request validation)
would impose no constraint; `is_active` uses `is not None`. -/
def filterUsers (f : UserFilterParams) (us : List User) : List User :=
  let us1 := match f.is_active with
    | some b => us.filter fun u => u.is_active == some b
    | none => us
  let us2 := match f.email_contains with
    | some q => if q = "" then us1
                else us1.filter fun u => optLowerContains q u.email
    | none => us1
  match f.username_contains with
  | some q => if q = "" then us2
              else us2.filter fun u => optLowerContains q u.username
  | none => us2

/-- The filter block of `list_items` (items.py lines 104-114): five
sequential list comprehensions.  `if filters.status:` is truthiness, but
every `ItemStatus` value is a non-empty string, hence truthy;
`if filters.owner_id:` treats 0 (excluded by validation, `gt=0`) like
absent; min/max price use `is not None`; `if filters.tag:` treats the
empty string (excluded by validation) like absent. -/
def filterItems (f : ItemFilterParams) (its : List Item) : List Item :=
  let i1 := match f.status with
    | some st => its.filter fun i => i.status == some st
    | none => its
  let i2 := match f.owner_id with
    | some o => if o = 0 then i1 else i1.filter fun i => i.owner_id == o
    | none => i1
  let i3 := match f.min_price with
    | some m => i2.filter fun i => priceGe i.price m
    | none => i2
  let i4 := match f.max_price with
    | some m => i3.filter fun i => priceLe i.price m
    | none => i3
  match f.tag with
  | some t => if t = "" then i4 else i4.filter fun i => tagMem t i.tags
  | none => i4

/-- `UserListResponse` (user.py lines 198-249). -/
structure UserListResponse where
  users : List User
  total : Nat
  skip : Nat
  limit : Nat
deriving DecidableEq, Repr

/-- `ItemListResponse` (item.py lines 237-290). -/
structure ItemListResponse where
  items : List Item
  total : Nat
  skip : Nat
  limit : Nat
deriving DecidableEq, Repr

/-- `xs[skip : skip + limit]` for non-negative bounds. -/
def pageSlice (xs : List α) (skip limit : Nat) : List α :=
  (xs.drop skip).take limit

/-- `list_users` (users.py lines 101-133): values in insertion order,
filter, count, slice. -/
def listUsers (s : UsersState) (pg : PaginationParams)
    (f : UserFilterParams) : UserListResponse :=
  let us := filterUsers f (s.db.map Prod.snd)
  { users := pageSlice us pg.skip pg.limit, total := us.length
    skip := pg.skip, limit := pg.limit }

/-- `list_items` (items.py lines 88-124): values in insertion order,
filter, count, slice. -/
def listItems (s : ItemsState) (pg : PaginationParams)
    (f : ItemFilterParams) : ItemListResponse :=
  let its := filterItems f (s.db.map Prod.snd)
  { items := pageSlice its pg.skip pg.limit, total := its.length
    skip := pg.skip, limit := pg.limit }

/-! ## Combined application state (src/app/main.py mounts both routers;
the two modules hold disjoint globals). -/

/-- The process-wide state: the user module globals and the item module
globals side by side. -/
structure AppState where
  users : UsersState
  items : ItemsState
deriving DecidableEq, Repr

/-- `create_user` acting on the whole application state. -/
def appCreateUser (a : AppState) (now : Nat) (b : UserCreate) :
    Except Err User × AppState :=
  let r := createUser a.users now b
  (r.1, { a with users := r.2 })

/-- `create_item` acting on the whole application state. -/
def appCreateItem (a : AppState) (now : Nat) (b : ItemCreate) :
    Item × AppState :=
  let r := createItem a.items now b
  (r.1, { a with items := r.2 })

/-! ## Trace harnesses for the identifier-allocation claim -/

/-- Run a sequence of `create_user` calls (each with its own clock value)
and collect the identifiers returned by the successful ones; failed calls
leave the state as they found it. -/
def runUserCreates : UsersState → List (Nat × UserCreate) → List Nat
  | _, [] => []
  | s, (now, b) :: rest =>
    match createUser s now b with
    | (.ok u, s') => u.id :: runUserCreates s' rest
    | (.error _, s') => runUserCreates s' rest

/-- Run a sequence of `create_item` calls and collect the identifiers
returned (item creation never fails). -/
def runItemCreates : ItemsState → List (Nat × ItemCreate) → List Nat
  | _, [] => []
  | s, (now, b) :: rest =>
    let r := createItem s now b
    r.1.id :: runItemCreates r.2 rest

/-! ## Spec-side filter predicates

The specification describes the list filter as a single conjunction of
independently-optional predicates.  These definitions follow the words of
the specification; the theorems below compare them with the sequential
filter pipeline translated from the source. -/

/-- Specification reading of the user filter: present criteria combined
with logical AND, an absent criterion imposes no constraint; `is_active`
is an exact match, the contains criteria are case-insensitive substring
matches. -/
def specUserMatch (f : UserFilterParams) (u : User) : Bool :=
  (match f.is_active with
   | some b => u.is_active == some b
   | none => true) &&
  (match f.email_contains with
   | some q => optLowerContains q u.email
   | none => true) &&
  (match f.username_contains with
   | some q => optLowerContains q u.username
   | none => true)

/-- Specification reading of the item filter: `status` and `owner_id`
exact matches, `min_price` / `max_price` inclusive bounds on the price,
`tag` membership in the tags sequence; absent criteria impose no
constraint; present criteria are combined with logical AND. -/
def specItemMatch (f : ItemFilterParams) (i : Item) : Bool :=
  (match f.status with
   | some st => i.status == some st
   | none => true) &&
  (match f.owner_id with
   | some o => i.owner_id == o
   | none => true) &&
  (match f.min_price with
   | some m => priceGe i.price m
   | none => true) &&
  (match f.max_price with
   | some m => priceLe i.price m
   | none => true) &&
  (match f.tag with
   | some t => tagMem t i.tags
   | none => true)

/-! ## Concrete fixtures used by the witness theorems -/

/-- Registration body of user A in the duplicate-email scenario. -/
def userBodyA : UserCreate :=
  { email := "a@x.com", username := "alice", full_name := none
    is_active := true, password := "password1" }

/-- The record stored for user A when created at time 3 in the empty store. -/
def userRecA : User :=
  { id := 1, email := some "a@x.com", username := some "alice"
    full_name := none, is_active := some true, created_at := 3
    updated_at := none }

/-- Store holding exactly user A. -/
def usersStateA : UsersState := { db := [(1, userRecA)], counter := 1 }

/-- Registration body reusing the email of user A under another username. -/
def userBodyDup : UserCreate :=
  { email := "a@x.com", username := "bob", full_name := none
    is_active := true, password := "password2" }

/-- Registration body whose email differs from user A only in case. -/
def userBodyB : UserCreate :=
  { email := "A@x.com", username := "bob", full_name := none
    is_active := true, password := "password2" }

/-- Create body of the Widget scenario: no status supplied, so request
validation fills the schema default. -/
def widgetCreate : ItemCreate :=
  { name := "Widget", description := none, price := 9.99
    status := itemStatusDefault, tags := [], owner_id := 1 }

/-- The record stored for the Widget created at time 0 in the empty store. -/
def widgetStored : Item :=
  { id := 1, name := some "Widget", description := none, price := some 9.99
    status := some .draft, tags := some [], owner_id := 1
    created_at := 0, updated_at := none }

/-- The Widget record after archiving at time 7. -/
def widgetArchived : Item :=
  { widgetStored with status := some .archived, updated_at := some 7 }

/-- Item store holding exactly the stored Widget. -/
def itemsStateW : ItemsState := { db := [(1, widgetStored)], counter := 1 }

/-- A user filter with no criterion present. -/
def noUserFilter : UserFilterParams :=
  { is_active := none, email_contains := none, username_contains := none }

/-- An item filter with no criterion present. -/
def noItemFilter : ItemFilterParams :=
  { status := none, owner_id := none, min_price := none, max_price := none
    tag := none }

/-- A user filter selecting active users whose email contains "X.COM". -/
def demoUserFilter : UserFilterParams :=
  { is_active := some true, email_contains := some "X.COM"
    username_contains := none }

/-- Default pagination: skip 0, limit 10. -/
def pg10 : PaginationParams := { skip := 0, limit := 10 }

/-- The k-th record of a 25-user demo store. -/
def demoUser (k : Nat) : User :=
  { id := k, email := some "d@x.com", username := some "demo"
    full_name := none, is_active := some true, created_at := 0
    updated_at := none }

/-- A store holding 25 users, for the pagination scenario. -/
def manyUsersState : UsersState :=
  { db := (List.range 25).map fun k => (k + 1, demoUser (k + 1))
    counter := 25 }

/-- An update request for user A: set the username, supply a password,
leave everything else absent. -/
def updEx : UserUpdate :=
  { email := none, username := some (some "alicia"), full_name := none
    is_active := none, password := some (some "newpassword") }

/-- User A after applying `updEx` at time 5. -/
def userRecA1 : User :=
  { userRecA with username := some "alicia", updated_at := some 5 }

/-- The user store after applying `updEx` to user A at time 5. -/
def usersStateA1 : UsersState := { db := [(1, userRecA1)], counter := 1 }

/-- A draft item with price 10 tagged "sale", for the filter scenario. -/
def demoItemA : Item :=
  { id := 1, name := some "A", description := none, price := some 10
    status := some .draft, tags := some ["sale"], owner_id := 1
    created_at := 0, updated_at := none }

/-- A draft item with price 3 and no tags, for the filter scenario. -/
def demoItemB : Item :=
  { id := 2, name := some "B", description := none, price := some 3
    status := some .draft, tags := some [], owner_id := 2
    created_at := 0, updated_at := none }

/-- An item filter: draft status, price at least 5, tag "sale". -/
def demoItemFilter : ItemFilterParams :=
  { status := some .draft, owner_id := none, min_price := some 5
    max_price := none, tag := some "sale" }

/-! ## Helper lemmas -/

theorem lookup_mem {β : Type} : ∀ {db : List (Nat × β)} {k : Nat} {v : β},
    db.lookup k = some v → (k, v) ∈ db := by
  intro db
  induction db with
  | nil => intro k v h; simp [List.lookup] at h
  | cons p rest ih =>
    intro k v h
    obtain ⟨a, b⟩ := p
    rw [List.lookup_cons] at h
    cases hka : (k == a) with
    | true =>
      rw [hka] at h
      simp only [Option.some.injEq] at h
      subst h
      have : k = a := by simpa using hka
      subst this
      exact List.mem_cons_self _ _
    | false =>
      rw [hka] at h
      exact List.mem_cons_of_mem _ (ih h)

theorem lookup_storeDel_self {β : Type} (db : List (Nat × β)) (k : Nat) :
    (storeDel db k).lookup k = none := by
  induction db with
  | nil => rfl
  | cons p rest ih =>
    obtain ⟨a, b⟩ := p
    by_cases hak : a = k
    · subst hak
      simpa [storeDel, List.filter_cons] using ih
    · have hne : (a != k) = true := by simpa using hak
      have hkan : (k == a) = false := by
        simp [Ne.symm hak]
      simp only [storeDel, List.filter_cons, hne, if_true]
      rw [List.lookup_cons, hkan]
      simpa [storeDel] using ih

theorem usersConflict_statusCode :
    ∀ {db : List (Nat × User)} {em un : String} {e : Err},
    usersConflict db em un = some e → e.statusCode = 400 := by
  intro db
  induction db with
  | nil => intro em un e h; simp [usersConflict] at h
  | cons p rest ih =>
    intro em un e h
    obtain ⟨a, u⟩ := p
    simp only [usersConflict] at h
    split at h
    · cases h; rfl
    · split at h
      · cases h; rfl
      · exact ih h

theorem usersConflict_of_email_mem :
    ∀ {db : List (Nat × User)} {em un : String} {p : Nat × User},
    p ∈ db → p.2.email = some em → (usersConflict db em un).isSome := by
  intro db
  induction db with
  | nil => intro em un p hp; cases hp
  | cons q rest ih =>
    intro em un p hp hm
    obtain ⟨a, u⟩ := q
    simp only [usersConflict]
    split
    · rfl
    · split
      · rfl
      · rcases List.mem_cons.mp hp with heq | htl
        · exfalso
          rename_i hne _
          apply hne
          subst heq
          simp only at hm
          simp [hm]
        · exact ih htl hm

theorem updateUser_password_irrel (s : UsersState) (now uid : Nat)
    (b : UserUpdate) (pw : Option (Option String)) :
    updateUser s now uid { b with password := pw } = updateUser s now uid b := by
  obtain ⟨e, un, fn, ia, pw0⟩ := b
  rfl

theorem runUserCreates_range' :
    ∀ (ops : List (Nat × UserCreate)) (s : UsersState),
    ∃ n, runUserCreates s ops = List.range' (s.counter + 1) n := by
  intro ops
  induction ops with
  | nil => intro s; exact ⟨0, rfl⟩
  | cons op rest ih =>
    intro s
    obtain ⟨now, b⟩ := op
    cases hc : usersConflict s.db b.email b.username with
    | some e =>
      have hcr : createUser s now b = (.error e, s) := by
        simp [createUser, hc]
      obtain ⟨n, hn⟩ := ih s
      refine ⟨n, ?_⟩
      rw [runUserCreates, hcr]
      exact hn
    | none =>
      have hcr : createUser s now b =
          (.ok { id := s.counter + 1, email := some b.email
                 username := some b.username, full_name := b.full_name
                 is_active := some b.is_active, created_at := now
                 updated_at := none },
           { db := s.db ++ [(s.counter + 1,
               { id := s.counter + 1, email := some b.email
                 username := some b.username, full_name := b.full_name
                 is_active := some b.is_active, created_at := now
                 updated_at := none })], counter := s.counter + 1 }) := by
        simp [createUser, hc]
      obtain ⟨n, hn⟩ := ih { db := s.db ++ [(s.counter + 1,
               { id := s.counter + 1, email := some b.email
                 username := some b.username, full_name := b.full_name
                 is_active := some b.is_active, created_at := now
                 updated_at := none })], counter := s.counter + 1 }
      refine ⟨n + 1, ?_⟩
      rw [runUserCreates, hcr]
      exact congrArg (List.cons (s.counter + 1)) hn

theorem filterUsers_eq_spec (f : UserFilterParams) (us : List User)
    (h1 : f.email_contains ≠ some "") (h2 : f.username_contains ≠ some "") :
    filterUsers f us = us.filter (specUserMatch f) := by
  obtain ⟨ia, ec, uc⟩ := f
  rcases ia with _ | b <;> rcases ec with _ | q1 <;> rcases uc with _ | q2
  all_goals
    try simp only [ne_eq, Option.some.injEq] at h1 h2
  all_goals
    simp only [filterUsers]
  all_goals
    try rw [if_neg h1]
  all_goals
    try rw [if_neg h2]
  all_goals
    try simp only [List.filter_filter]
  all_goals
    first
      | (refine Eq.symm (List.filter_eq_self.mpr fun u hu => ?_)
         simp [specUserMatch])
      | (refine List.filter_congr fun u hu => ?_
         simp [specUserMatch, Bool.and_comm, Bool.and_left_comm,
               Bool.and_assoc])

theorem filterItems_eq_spec (f : ItemFilterParams) (its : List Item)
    (h0 : f.owner_id ≠ some 0) (h1 : f.tag ≠ some "") :
    filterItems f its = its.filter (specItemMatch f) := by
  obtain ⟨st, oid, mn, mx, tg⟩ := f
  rcases st with _ | s0 <;> rcases oid with _ | o <;> rcases mn with _ | m1 <;>
    rcases mx with _ | m2 <;> rcases tg with _ | t
  all_goals
    try simp only [ne_eq, Option.some.injEq] at h0 h1
  all_goals
    simp only [filterItems]
  all_goals
    try rw [if_neg h0]
  all_goals
    try rw [if_neg h1]
  all_goals
    try simp only [List.filter_filter]
  all_goals
    first
      | (refine Eq.symm (List.filter_eq_self.mpr fun i hi => ?_)
         simp [specItemMatch])
      | (refine List.filter_congr fun i hi => ?_
         simp [specItemMatch, Bool.and_comm, Bool.and_left_comm,
               Bool.and_assoc])

theorem runItemCreates_range' :
    ∀ (ops : List (Nat × ItemCreate)) (s : ItemsState),
    runItemCreates s ops = List.range' (s.counter + 1) ops.length := by
  intro ops
  induction ops with
  | nil => intro s; rfl
  | cons op rest ih =>
    intro s
    obtain ⟨now, b⟩ := op
    rw [runItemCreates]
    rw [ih]
    rfl

theorem updateUser_ok_shape {s : UsersState} {now uid : Nat}
    {b : UserUpdate} {u' : User} {s' : UsersState}
    (h : updateUser s now uid b = (.ok u', s')) :
    ∃ u, s.db.lookup uid = some u ∧
      emailTakenByOther s.db uid b.email = false ∧
      usernameTakenByOther s.db uid b.username = false ∧
      u' = { mergeUser u b with updated_at := some now } ∧
      s' = { s with db := storeSet s.db uid u' } := by
  cases hl : s.db.lookup uid with
  | none =>
    simp only [updateUser, hl] at h
    simp at h
  | some u =>
    simp only [updateUser, hl] at h
    split at h
    · simp at h
    · split at h
      · simp at h
      · rename_i he hn
        rw [Prod.mk.injEq] at h
        obtain ⟨h1, h2⟩ := h
        injection h1 with h1
        simp only [Bool.not_eq_true] at he hn
        exact ⟨u, rfl, he, hn, h1.symm, by rw [← h2, h1]⟩

theorem updateItem_ok_shape {s : ItemsState} {now iid : Nat}
    {b : ItemUpdate} {i' : Item} {s' : ItemsState}
    (h : updateItem s now iid b = (.ok i', s')) :
    ∃ it, s.db.lookup iid = some it ∧
      i' = { mergeItem it b with updated_at := some now } ∧
      s' = { s with db := storeSet s.db iid i' } := by
  cases hl : s.db.lookup iid with
  | none =>
    simp only [updateItem, hl] at h
    simp at h
  | some it =>
    simp only [updateItem, hl] at h
    rw [Prod.mk.injEq] at h
    obtain ⟨h1, h2⟩ := h
    injection h1 with h1
    exact ⟨it, rfl, h1.symm, by rw [← h2, h1]⟩

theorem emailTakenByOther_none_false {db : List (Nat × User)} {uid : Nat}
    (h : ∀ p ∈ db, p.1 ≠ uid → p.2.email ≠ none) :
    emailTakenByOther db uid (some none) = false := by
  simp only [emailTakenByOther]
  rw [List.any_eq_false]
  intro p hp
  simp only [Bool.and_eq_true, bne_iff_ne, beq_iff_eq, not_and]
  intro hne hmm
  exact h p hp hne hmm


/-! ## Claim theorems -/

/-- Claim C1: a partial user update writes exactly the updatable fields
present in the request; every updatable field omitted from the request
keeps its stored value, as do the identifier and the creation timestamp;
and a supplied password field is accepted but never persisted or echoed:
the stored and returned record (and the whole outcome) are identical for
every value of the password field. -/
theorem claimC1_partial_update_fields (s : UsersState) (now uid : Nat)
    (b : UserUpdate) (u u' : User) (s' : UsersState)
    (hu : s.db.lookup uid = some u)
    (h : updateUser s now uid b = (.ok u', s')) :
    (∀ v, b.email = some v → u'.email = v) ∧
    (b.email = none → u'.email = u.email) ∧
    (∀ v, b.username = some v → u'.username = v) ∧
    (b.username = none → u'.username = u.username) ∧
    (∀ v, b.full_name = some v → u'.full_name = v) ∧
    (b.full_name = none → u'.full_name = u.full_name) ∧
    (∀ v, b.is_active = some v → u'.is_active = v) ∧
    (b.is_active = none → u'.is_active = u.is_active) ∧
    u'.id = u.id ∧ u'.created_at = u.created_at ∧
    (∀ pw, updateUser s now uid { b with password := pw } = (.ok u', s')) := by
  obtain ⟨u0, hl, he, hn, hu', hs'⟩ := updateUser_ok_shape h
  rw [hu] at hl
  injection hl with hl
  subst hl
  subst hu'
  refine ⟨?_, ?_, ?_, ?_, ?_, ?_, ?_, ?_, ?_, ?_, ?_⟩
  · intro v hv; simp [mergeUser, hv]
  · intro hv; simp [mergeUser, hv]
  · intro v hv; simp [mergeUser, hv]
  · intro hv; simp [mergeUser, hv]
  · intro v hv; simp [mergeUser, hv]
  · intro hv; simp [mergeUser, hv]
  · intro v hv; simp [mergeUser, hv]
  · intro hv; simp [mergeUser, hv]
  · simp [mergeUser]
  · simp [mergeUser]
  · intro pw
    rw [updateUser_password_irrel]
    exact h

/-- Witness for claim C1: updating user A with a new username and a
password leaves email, full name, active flag, id and creation time
untouched, applies the username, and the outcome is unchanged for every
password value. -/
theorem claimC1_witness :
    usersStateA.db.lookup 1 = some userRecA ∧
    updateUser usersStateA 5 1 updEx = (.ok userRecA1, usersStateA1) ∧
    ((∀ v, updEx.email = some v → userRecA1.email = v) ∧
     (updEx.email = none → userRecA1.email = userRecA.email) ∧
     (∀ v, updEx.username = some v → userRecA1.username = v) ∧
     (updEx.username = none → userRecA1.username = userRecA.username) ∧
     (∀ v, updEx.full_name = some v → userRecA1.full_name = v) ∧
     (updEx.full_name = none → userRecA1.full_name = userRecA.full_name) ∧
     (∀ v, updEx.is_active = some v → userRecA1.is_active = v) ∧
     (updEx.is_active = none → userRecA1.is_active = userRecA.is_active) ∧
     userRecA1.id = userRecA.id ∧ userRecA1.created_at = userRecA.created_at ∧
     (∀ pw, updateUser usersStateA 5 1 { updEx with password := pw } =
        (.ok userRecA1, usersStateA1))) :=
  ⟨rfl, rfl,
   claimC1_partial_update_fields usersStateA 5 1 updEx userRecA userRecA1
     usersStateA1 rfl rfl⟩

/-- Claim C3: if a user with email E is already stored, any create call
for email E fails with a 400 conflict regardless of the username, the
store is returned unchanged, and the stored user is still retrievable by
get with all its fields intact. -/
theorem claimC3_duplicate_email_conflict (s : UsersState) (now : Nat)
    (b : UserCreate) (uid : Nat) (u : User)
    (hu : s.db.lookup uid = some u) (he : u.email = some b.email) :
    ∃ e : Err, createUser s now b = (.error e, s) ∧ e.statusCode = 400 ∧
      getUser s uid = .ok u := by
  have hmem : (uid, u) ∈ s.db := lookup_mem hu
  have hsome : (usersConflict s.db b.email b.username).isSome :=
    @usersConflict_of_email_mem s.db b.email b.username (uid, u) hmem he
  cases hc : usersConflict s.db b.email b.username with
  | none => rw [hc] at hsome; simp at hsome
  | some e =>
    refine ⟨e, ?_, usersConflict_statusCode hc, ?_⟩
    · simp [createUser, hc]
    · simp [getUser, hu]

/-- Witness for claim C3: with user A (email "a@x.com") stored, creating
user B with the same email and username "bob" fails with a 400 conflict
and leaves user A retrievable. -/
theorem claimC3_witness :
    usersStateA.db.lookup 1 = some userRecA ∧
    userRecA.email = some userBodyDup.email ∧
    (∃ e : Err, createUser usersStateA 9 userBodyDup =
        (.error e, usersStateA) ∧ e.statusCode = 400 ∧
      getUser usersStateA 1 = .ok userRecA) :=
  ⟨rfl, rfl,
   claimC3_duplicate_email_conflict usersStateA 9 userBodyDup 1 userRecA
     rfl rfl⟩

/-- Claim C4: the create-time uniqueness check is exact string equality
on the values as provided: two creates whose emails differ only in
letter case (and whose usernames are distinct) both succeed, the second
running against the state produced by the first. -/
theorem claimC4_case_only_email_difference (now1 now2 : Nat)
    (b1 b2 : UserCreate) (hcase : lowerChars b1.email = lowerChars b2.email)
    (hne : b1.email ≠ b2.email) (hun : b1.username ≠ b2.username) :
    (createUser initUsers now1 b1).1.isOk = true ∧
    (createUser (createUser initUsers now1 b1).2 now2 b2).1.isOk = true := by
  have he2 : (some b1.email == some b2.email) = false := by
    simp [hne]
  have hu2 : (some b1.username == some b2.username) = false := by
    simp [hun]
  constructor
  · rfl
  · simp [createUser, initUsers, usersConflict, he2, hu2, Except.isOk,
          Except.toBool]

/-- Witness for claim C4: "a@x.com" and "A@x.com" differ only in case;
both registrations succeed. -/
theorem claimC4_witness :
    lowerChars userBodyA.email = lowerChars userBodyB.email ∧
    userBodyA.email ≠ userBodyB.email ∧
    userBodyA.username ≠ userBodyB.username ∧
    ((createUser initUsers 3 userBodyA).1.isOk = true ∧
     (createUser (createUser initUsers 3 userBodyA).2 4 userBodyB).1.isOk =
       true) :=
  ⟨by decide, by decide, by decide,
   claimC4_case_only_email_difference 3 4 userBodyA userBodyB (by decide)
     (by decide) (by decide)⟩

/-- Claim C5: an empty partial update of a stored user or item succeeds
and changes nothing but `updated_at`, which becomes non-null and at
least its previous value (given that the clock did not go backwards);
and every successful update stamps `updated_at = now`, even when the
supplied values equal the stored ones. -/
theorem claimC5_empty_update_stamps_time (su : UsersState)
    (si : ItemsState) (now uid iid : Nat) (u : User) (it : Item)
    (hu : su.db.lookup uid = some u) (hi : si.db.lookup iid = some it)
    (hcu : ∀ t, u.updated_at = some t → t ≤ now)
    (hci : ∀ t, it.updated_at = some t → t ≤ now) :
    (updateUser su now uid noneUserUpd =
       (.ok { u with updated_at := some now },
        { su with db := storeSet su.db uid { u with updated_at := some now } }) ∧
     some now ≠ (none : Option Nat) ∧
     (∀ t, u.updated_at = some t → t ≤ now)) ∧
    (updateItem si now iid noneItemUpd =
       (.ok { it with updated_at := some now },
        { si with db := storeSet si.db iid { it with updated_at := some now } }) ∧
     some now ≠ (none : Option Nat) ∧
     (∀ t, it.updated_at = some t → t ≤ now)) ∧
    (∀ (b : UserUpdate) (u' : User) (s' : UsersState),
       updateUser su now uid b = (.ok u', s') → u'.updated_at = some now) ∧
    (∀ (b : ItemUpdate) (i' : Item) (s' : ItemsState),
       updateItem si now iid b = (.ok i', s') → i'.updated_at = some now) := by
  refine ⟨⟨?_, by simp, hcu⟩, ⟨?_, by simp, hci⟩, ?_, ?_⟩
  · simp only [updateUser, hu]
    rfl
  · simp only [updateItem, hi]
    rfl
  · intro b u' s' h
    obtain ⟨u0, -, -, -, hu', -⟩ := updateUser_ok_shape h
    rw [hu']
  · intro b i' s' h
    obtain ⟨i0, -, hi', -⟩ := updateItem_ok_shape h
    rw [hi']

/-- Witness for claim C5: empty updates of stored user A and the stored
Widget at time 9 leave every field unchanged and set `updated_at` to 9. -/
theorem claimC5_witness :
    (updateUser usersStateA 9 1 noneUserUpd =
       (.ok { userRecA with updated_at := some 9 },
        { usersStateA with
          db := storeSet usersStateA.db 1
            { userRecA with updated_at := some 9 } }) ∧
     some 9 ≠ (none : Option Nat) ∧
     (∀ t, userRecA.updated_at = some t → t ≤ 9)) ∧
    (updateItem itemsStateW 9 1 noneItemUpd =
       (.ok { widgetStored with updated_at := some 9 },
        { itemsStateW with
          db := storeSet itemsStateW.db 1
            { widgetStored with updated_at := some 9 } }) ∧
     some 9 ≠ (none : Option Nat) ∧
     (∀ t, widgetStored.updated_at = some t → t ≤ 9)) ∧
    (∀ (b : UserUpdate) (u' : User) (s' : UsersState),
       updateUser usersStateA 9 1 b = (.ok u', s') →
         u'.updated_at = some 9) ∧
    (∀ (b : ItemUpdate) (i' : Item) (s' : ItemsState),
       updateItem itemsStateW 9 1 b = (.ok i', s') →
         i'.updated_at = some 9) :=
  claimC5_empty_update_stamps_time usersStateA itemsStateW 9 1 1 userRecA
    widgetStored rfl rfl
    (by intro t ht; simp [userRecA] at ht)
    (by intro t ht; simp [widgetStored] at ht)

/-- Claim C8: every identifier-addressed operation (get, update, delete,
and archive for items) invoked with an identifier absent from the store
fails with the 404 not-found error and returns the store unchanged; and
a successful delete followed by a get of the same identifier always
fails with the not-found error. -/
theorem claimC8_missing_identifier (su : UsersState) (si : ItemsState)
    (now uid iid : Nat) (bu : UserUpdate) (bi : ItemUpdate)
    (hu : su.db.lookup uid = none) (hi : si.db.lookup iid = none) :
    getUser su uid = .error .notFound ∧
    updateUser su now uid bu = (.error .notFound, su) ∧
    deleteUser su uid = (.error .notFound, su) ∧
    getItem si iid = .error .notFound ∧
    updateItem si now iid bi = (.error .notFound, si) ∧
    deleteItem si iid = (.error .notFound, si) ∧
    archiveItem si now iid = (.error .notFound, si) ∧
    Err.notFound.statusCode = 404 ∧
    (∀ (s0 s1 : UsersState) (k : Nat), deleteUser s0 k = (.ok (), s1) →
       getUser s1 k = .error .notFound) ∧
    (∀ (t0 t1 : ItemsState) (k : Nat), deleteItem t0 k = (.ok (), t1) →
       getItem t1 k = .error .notFound) := by
  refine ⟨?_, ?_, ?_, ?_, ?_, ?_, ?_, rfl, ?_, ?_⟩
  · simp [getUser, hu]
  · simp [updateUser, hu]
  · simp [deleteUser, hu]
  · simp [getItem, hi]
  · simp [updateItem, hi]
  · simp [deleteItem, hi]
  · simp [archiveItem, hi]
  · intro s0 s1 k h
    cases hl : s0.db.lookup k with
    | none => simp [deleteUser, hl] at h
    | some v =>
      simp only [deleteUser, hl] at h
      rw [Prod.mk.injEq] at h
      obtain ⟨-, h2⟩ := h
      rw [← h2]
      simp [getUser, lookup_storeDel_self]
  · intro t0 t1 k h
    cases hl : t0.db.lookup k with
    | none => simp [deleteItem, hl] at h
    | some v =>
      simp only [deleteItem, hl] at h
      rw [Prod.mk.injEq] at h
      obtain ⟨-, h2⟩ := h
      rw [← h2]
      simp [getItem, lookup_storeDel_self]

/-- Witness for claim C8: identifier 2 is absent from both single-record
stores; every addressed operation fails with 404 and leaves the store as
it was, and delete-then-get always yields not-found. -/
theorem claimC8_witness :
    getUser usersStateA 2 = .error .notFound ∧
    updateUser usersStateA 9 2 noneUserUpd = (.error .notFound, usersStateA) ∧
    deleteUser usersStateA 2 = (.error .notFound, usersStateA) ∧
    getItem itemsStateW 2 = .error .notFound ∧
    updateItem itemsStateW 9 2 noneItemUpd = (.error .notFound, itemsStateW) ∧
    deleteItem itemsStateW 2 = (.error .notFound, itemsStateW) ∧
    archiveItem itemsStateW 9 2 = (.error .notFound, itemsStateW) ∧
    Err.notFound.statusCode = 404 ∧
    (∀ (s0 s1 : UsersState) (k : Nat), deleteUser s0 k = (.ok (), s1) →
       getUser s1 k = .error .notFound) ∧
    (∀ (t0 t1 : ItemsState) (k : Nat), deleteItem t0 k = (.ok (), t1) →
       getItem t1 k = .error .notFound) :=
  claimC8_missing_identifier usersStateA itemsStateW 9 2 2 noneUserUpd
    noneItemUpd rfl rfl

/-- Claim C9: from the empty item store, creating the Widget (name
"Widget", price 9.99, owner 1, no status supplied so the schema default
applies) returns id 1, status draft, null `updated_at`; archiving it
succeeds, sets status to archived and `updated_at` to a non-null time,
changes no other field, does not remove the record, and the record stays
retrievable via get. -/
theorem claimC9_widget_scenario :
    createItem initItems 0 widgetCreate = (widgetStored, itemsStateW) ∧
    widgetStored.id = 1 ∧
    widgetStored.status = some ItemStatus.draft ∧
    itemStatusDefault = ItemStatus.draft ∧
    widgetStored.updated_at = none ∧
    archiveItem itemsStateW 7 1 =
      (.ok widgetArchived,
       { itemsStateW with db := [(1, widgetArchived)] }) ∧
    widgetArchived.status = some ItemStatus.archived ∧
    widgetArchived.updated_at = some 7 ∧
    (some 7 : Option Nat) ≠ none ∧
    widgetArchived.created_at = widgetStored.created_at ∧
    widgetArchived.id = widgetStored.id ∧
    widgetArchived.name = widgetStored.name ∧
    widgetArchived.description = widgetStored.description ∧
    widgetArchived.price = widgetStored.price ∧
    widgetArchived.tags = widgetStored.tags ∧
    widgetArchived.owner_id = widgetStored.owner_id ∧
    getItem { itemsStateW with db := [(1, widgetArchived)] } 1 =
      .ok widgetArchived :=
  ⟨rfl, rfl, rfl, rfl, rfl, rfl, rfl, rfl, Option.some_ne_none 7, rfl, rfl,
   rfl, rfl, rfl, rfl, rfl, rfl⟩

/-- Claim C2: identifiers returned by successful creates on one store
form the consecutive sequence 1, 2, ... (strictly increasing, starting
at 1); a successful create always returns counter + 1 and, whenever
every stored key is bounded by the counter, that identifier differs from
every key ever stored (so deleted identifiers are never reused — delete
leaves the counter untouched); and the two stores advance independent
counters: creating in one leaves the other module state unchanged. -/
theorem claimC2_identifier_allocation :
    (∀ ops : List (Nat × UserCreate), ∃ n,
       runUserCreates initUsers ops = List.range' 1 n) ∧
    (∀ ops : List (Nat × ItemCreate),
       runItemCreates initItems ops = List.range' 1 ops.length) ∧
    (∀ (s : UsersState) (now : Nat) (b : UserCreate) (u : User)
       (s' : UsersState), createUser s now b = (.ok u, s') →
       u.id = s.counter + 1 ∧ s'.counter = s.counter + 1 ∧
       ((∀ p ∈ s.db, p.1 ≤ s.counter) → ∀ p ∈ s.db, p.1 ≠ u.id)) ∧
    (∀ (s : ItemsState) (now : Nat) (b : ItemCreate),
       (createItem s now b).1.id = s.counter + 1 ∧
       (createItem s now b).2.counter = s.counter + 1 ∧
       ((∀ p ∈ s.db, p.1 ≤ s.counter) →
          ∀ p ∈ s.db, p.1 ≠ (createItem s now b).1.id)) ∧
    (∀ (s : UsersState) (uid : Nat),
       ((deleteUser s uid).2).counter = s.counter) ∧
    (∀ (s : ItemsState) (iid : Nat),
       ((deleteItem s iid).2).counter = s.counter) ∧
    (∀ (a : AppState) (now : Nat) (b : ItemCreate),
       ((appCreateItem a now b).2).users = a.users) ∧
    (∀ (a : AppState) (now : Nat) (b : UserCreate),
       ((appCreateUser a now b).2).items = a.items) := by
  refine ⟨?_, ?_, ?_, ?_, ?_, ?_, ?_, ?_⟩
  · intro ops
    exact runUserCreates_range' ops initUsers
  · intro ops
    exact runItemCreates_range' ops initItems
  · intro s now b u s' h
    cases hc : usersConflict s.db b.email b.username with
    | some e => simp [createUser, hc] at h
    | none =>
      simp only [createUser, hc] at h
      rw [Prod.mk.injEq] at h
      obtain ⟨h1, h2⟩ := h
      injection h1 with h1
      refine ⟨?_, ?_, ?_⟩
      · rw [← h1]
      · rw [← h2]
      · intro hinv p hp
        have hb := hinv p hp
        rw [← h1]
        show p.1 ≠ s.counter + 1
        omega
  · intro s now b
    refine ⟨rfl, rfl, ?_⟩
    intro hinv p hp
    have hb := hinv p hp
    show p.1 ≠ s.counter + 1
    omega
  · intro s uid
    cases hl : s.db.lookup uid <;> simp [deleteUser, hl]
  · intro s iid
    cases hl : s.db.lookup iid <;> simp [deleteItem, hl]
  · intro a now b
    rfl
  · intro a now b
    rfl

/-- Witness for claim C2: three user creations (the second a duplicate
email that fails) return ids 1, 2; and creating user A from the empty
store returns id 1 = counter + 1, fresh for the (empty) key set. -/
theorem claimC2_witness :
    (∃ n, runUserCreates initUsers
       [(3, userBodyA), (9, userBodyDup), (4, userBodyB)] =
         List.range' 1 n) ∧
    (userRecA.id = initUsers.counter + 1 ∧
     usersStateA.counter = initUsers.counter + 1 ∧
     ((∀ p ∈ initUsers.db, p.1 ≤ initUsers.counter) →
        ∀ p ∈ initUsers.db, p.1 ≠ userRecA.id)) :=
  ⟨claimC2_identifier_allocation.1 [(3, userBodyA), (9, userBodyDup), (4, userBodyB)],
   claimC2_identifier_allocation.2.2.1 initUsers 3 userBodyA userRecA
     usersStateA rfl⟩

/-- Claim C6: the list filters apply exactly the present criteria,
combined with logical AND (absent criteria impose no constraint), with
the per-criterion meanings of the specification, and the filtered output
is a stable subsequence of the input (no re-sort). -/
theorem claimC6_filter_semantics (f : UserFilterParams)
    (g : ItemFilterParams) (us : List User) (its : List Item)
    (h1 : f.email_contains ≠ some "") (h2 : f.username_contains ≠ some "")
    (h3 : g.owner_id ≠ some 0) (h4 : g.tag ≠ some "") :
    filterUsers f us = us.filter (specUserMatch f) ∧
    List.Sublist (filterUsers f us) us ∧
    filterItems g its = its.filter (specItemMatch g) ∧
    List.Sublist (filterItems g its) its := by
  have e1 := filterUsers_eq_spec f us h1 h2
  have e2 := filterItems_eq_spec g its h3 h4
  refine ⟨e1, ?_, e2, ?_⟩
  · rw [e1]
    exact List.filter_sublist us
  · rw [e2]
    exact List.filter_sublist its

/-- Witness for claim C6: a user filter (active, email containing
"X.COM") over users A and A-updated, and an item filter (draft, price at
least 5, tagged "sale") over two demo items, both agree with the
specification predicate and produce stable subsequences. -/
theorem claimC6_witness :
    filterUsers demoUserFilter [userRecA, userRecA1] =
      List.filter (specUserMatch demoUserFilter) [userRecA, userRecA1] ∧
    List.Sublist (filterUsers demoUserFilter [userRecA, userRecA1])
      [userRecA, userRecA1] ∧
    filterItems demoItemFilter [demoItemA, demoItemB] =
      List.filter (specItemMatch demoItemFilter) [demoItemA, demoItemB] ∧
    List.Sublist (filterItems demoItemFilter [demoItemA, demoItemB])
      [demoItemA, demoItemB] :=
  claimC6_filter_semantics demoUserFilter demoItemFilter
    [userRecA, userRecA1] [demoItemA, demoItemB]
    (by decide) (by decide) (by decide) (by decide)

/-- Claim C7: for any filtered record list, skip and limit in 1..100,
the list endpoint reports `total` as the filtered count before slicing
and returns at most `limit` records starting at offset `skip`; slicing
beyond the end yields the empty list, not an error; and skip 0 with
limit 10 over 25 matching records returns the first 10 with total 25. -/
theorem claimC7_pagination (su : UsersState) (si : ItemsState)
    (pg : PaginationParams) (f : UserFilterParams) (g : ItemFilterParams)
    (hl1 : 1 ≤ pg.limit) (hl2 : pg.limit ≤ 100) :
    ((listUsers su pg f).total =
       (filterUsers f (su.db.map Prod.snd)).length ∧
     (listUsers su pg f).users =
       ((filterUsers f (su.db.map Prod.snd)).drop pg.skip).take pg.limit ∧
     (listUsers su pg f).users.length ≤ pg.limit ∧
     ((filterUsers f (su.db.map Prod.snd)).length ≤ pg.skip →
        (listUsers su pg f).users = []) ∧
     (pg.skip = 0 → pg.limit = 10 →
      (filterUsers f (su.db.map Prod.snd)).length = 25 →
        (listUsers su pg f).users =
          (filterUsers f (su.db.map Prod.snd)).take 10 ∧
        (listUsers su pg f).total = 25)) ∧
    ((listItems si pg g).total =
       (filterItems g (si.db.map Prod.snd)).length ∧
     (listItems si pg g).items =
       ((filterItems g (si.db.map Prod.snd)).drop pg.skip).take pg.limit ∧
     (listItems si pg g).items.length ≤ pg.limit ∧
     ((filterItems g (si.db.map Prod.snd)).length ≤ pg.skip →
        (listItems si pg g).items = []) ∧
     (pg.skip = 0 → pg.limit = 10 →
      (filterItems g (si.db.map Prod.snd)).length = 25 →
        (listItems si pg g).items =
          (filterItems g (si.db.map Prod.snd)).take 10 ∧
        (listItems si pg g).total = 25)) := by
  constructor
  · refine ⟨rfl, rfl, ?_, ?_, ?_⟩
    · show (pageSlice (filterUsers f (su.db.map Prod.snd))
        pg.skip pg.limit).length ≤ pg.limit
      simp only [pageSlice, List.length_take]
      exact Nat.min_le_left _ _
    · intro hle
      show pageSlice (filterUsers f (su.db.map Prod.snd))
        pg.skip pg.limit = []
      simp [pageSlice, List.drop_eq_nil_of_le hle]
    · intro h0 h10 h25
      constructor
      · show pageSlice (filterUsers f (su.db.map Prod.snd))
          pg.skip pg.limit = _
        rw [pageSlice, h0, h10, List.drop_zero]
      · exact h25
  · refine ⟨rfl, rfl, ?_, ?_, ?_⟩
    · show (pageSlice (filterItems g (si.db.map Prod.snd))
        pg.skip pg.limit).length ≤ pg.limit
      simp only [pageSlice, List.length_take]
      exact Nat.min_le_left _ _
    · intro hle
      show pageSlice (filterItems g (si.db.map Prod.snd))
        pg.skip pg.limit = []
      simp [pageSlice, List.drop_eq_nil_of_le hle]
    · intro h0 h10 h25
      constructor
      · show pageSlice (filterItems g (si.db.map Prod.snd))
          pg.skip pg.limit = _
        rw [pageSlice, h0, h10, List.drop_zero]
      · exact h25

/-- Witness for claim C7: listing the 25-user store with no filter, skip
0 and limit 10 returns the first 10 records and total 25; the item side
runs over the single-Widget store. -/
theorem claimC7_witness :
    ((listUsers manyUsersState pg10 noUserFilter).total =
       (filterUsers noUserFilter (manyUsersState.db.map Prod.snd)).length ∧
     (listUsers manyUsersState pg10 noUserFilter).users =
       ((filterUsers noUserFilter
          (manyUsersState.db.map Prod.snd)).drop pg10.skip).take pg10.limit ∧
     (listUsers manyUsersState pg10 noUserFilter).users.length ≤
       pg10.limit ∧
     ((filterUsers noUserFilter (manyUsersState.db.map Prod.snd)).length ≤
        pg10.skip →
        (listUsers manyUsersState pg10 noUserFilter).users = []) ∧
     (pg10.skip = 0 → pg10.limit = 10 →
      (filterUsers noUserFilter
         (manyUsersState.db.map Prod.snd)).length = 25 →
        (listUsers manyUsersState pg10 noUserFilter).users =
          (filterUsers noUserFilter
            (manyUsersState.db.map Prod.snd)).take 10 ∧
        (listUsers manyUsersState pg10 noUserFilter).total = 25)) ∧
    ((listItems itemsStateW pg10 noItemFilter).total =
       (filterItems noItemFilter (itemsStateW.db.map Prod.snd)).length ∧
     (listItems itemsStateW pg10 noItemFilter).items =
       ((filterItems noItemFilter
          (itemsStateW.db.map Prod.snd)).drop pg10.skip).take pg10.limit ∧
     (listItems itemsStateW pg10 noItemFilter).items.length ≤ pg10.limit ∧
     ((filterItems noItemFilter (itemsStateW.db.map Prod.snd)).length ≤
        pg10.skip →
        (listItems itemsStateW pg10 noItemFilter).items = []) ∧
     (pg10.skip = 0 → pg10.limit = 10 →
      (filterItems noItemFilter (itemsStateW.db.map Prod.snd)).length = 25 →
        (listItems itemsStateW pg10 noItemFilter).items =
          (filterItems noItemFilter (itemsStateW.db.map Prod.snd)).take 10 ∧
        (listItems itemsStateW pg10 noItemFilter).total = 25)) :=
  claimC7_pagination manyUsersState itemsStateW pg10 noUserFilter
    noItemFilter (by decide) (by decide)

/-- Claim C10: a field explicitly present with null in a partial update
is applied, overwriting the stored value with null (full name and email
for users, status for items), which is treated differently from an
absent field (an empty update keeps the stored full name); the update
operation accepts the null and performs the write.  The email case needs
no other stored record to hold a null email, or the conflict scan would
match the null against it. -/
theorem claimC10_explicit_null_applied (su : UsersState) (si : ItemsState)
    (now uid iid : Nat) (u : User) (it : Item)
    (hu : su.db.lookup uid = some u) (hi : si.db.lookup iid = some it)
    (ho : ∀ p ∈ su.db, p.1 ≠ uid → p.2.email ≠ none) :
    updateUser su now uid { noneUserUpd with full_name := some none } =
      (.ok { u with full_name := none, updated_at := some now },
       { su with
         db := storeSet su.db uid
           { u with full_name := none, updated_at := some now } }) ∧
    updateUser su now uid { noneUserUpd with email := some none } =
      (.ok { u with email := none, updated_at := some now },
       { su with
         db := storeSet su.db uid
           { u with email := none, updated_at := some now } }) ∧
    updateItem si now iid { noneItemUpd with status := some none } =
      (.ok { it with status := none, updated_at := some now },
       { si with
         db := storeSet si.db iid
           { it with status := none, updated_at := some now } }) ∧
    updateUser su now uid noneUserUpd =
      (.ok { u with updated_at := some now },
       { su with
         db := storeSet su.db uid
           { u with updated_at := some now } }) := by
  have hfalse : emailTakenByOther su.db uid (some none) = false :=
    emailTakenByOther_none_false ho
  refine ⟨?_, ?_, ?_, ?_⟩
  · simp only [updateUser, hu]
    rfl
  · simp only [updateUser, hu, noneUserUpd, hfalse]
    rfl
  · simp only [updateItem, hi]
    rfl
  · simp only [updateUser, hu]
    rfl

/-- Witness for claim C10: explicit nulls clear user A's full name or
email and the Widget's status, while the empty update leaves them be. -/
theorem claimC10_witness :
    updateUser usersStateA 9 1 { noneUserUpd with full_name := some none } =
      (.ok { userRecA with full_name := none, updated_at := some 9 },
       { usersStateA with
         db := storeSet usersStateA.db 1
           { userRecA with full_name := none, updated_at := some 9 } }) ∧
    updateUser usersStateA 9 1 { noneUserUpd with email := some none } =
      (.ok { userRecA with email := none, updated_at := some 9 },
       { usersStateA with
         db := storeSet usersStateA.db 1
           { userRecA with email := none, updated_at := some 9 } }) ∧
    updateItem itemsStateW 9 1 { noneItemUpd with status := some none } =
      (.ok { widgetStored with status := none, updated_at := some 9 },
       { itemsStateW with
         db := storeSet itemsStateW.db 1
           { widgetStored with status := none, updated_at := some 9 } }) ∧
    updateUser usersStateA 9 1 noneUserUpd =
      (.ok { userRecA with updated_at := some 9 },
       { usersStateA with
         db := storeSet usersStateA.db 1
           { userRecA with updated_at := some 9 } }) :=
  claimC10_explicit_null_applied usersStateA itemsStateW 9 1 1 userRecA
    widgetStored rfl rfl (by decide)
